import Mathlib

/-!
# Session coordinator of the ion signalling node (`pkg/node/biz/client.go`)

The client actions `join`, `leave`, `publish`, `unpublish`, `subscribe`,
`unsubscribe` and `broadcast` are embedded as pure functions.  Each action
takes the registry it starts from and an environment `Env` that fixes the
outcome of every external call the action may make (node discovery, the
requests to the islb node, the gRPC calls on the sfu client), and returns
its Go result, the registry it leaves behind and the list of external
calls it issued, in program order.  Closures handed to `AsyncRequest(..).Then`
and the goroutine started by `publish` are defunctionalised (`Cont`, `Task`)
and given their bodies by `runCont` and `runTask`.  Logging is not modelled.
-/

namespace Ion

/-! ## Data carried by the actions -/

/-- Peer handle of package `signal`; the coordinator only reads `peer.ID()`. -/
structure Peer where
  id : String
deriving DecidableEq, Repr

/-- Value built by `util.NewNpError(code, reason)`. -/
structure NpError where
  code : Int
  reason : String
deriving DecidableEq, Repr

def NewNpError (code : Int) (reason : String) : NpError := ⟨code, reason⟩

/-- The error codes `codeRoomErr`, `codeJsepErr`, `codeMIDErr` and the table
`codeStr` are declared elsewhere in package `biz`; they are parameters. -/
structure Codes where
  codeRoomErr : Int
  codeJsepErr : Int
  codeMIDErr : Int
  codeStr : Int → String

def ridError (c : Codes) : NpError := NewNpError c.codeRoomErr (c.codeStr c.codeRoomErr)

def jsepError (c : Codes) : NpError := NewNpError c.codeJsepErr (c.codeStr c.codeJsepErr)

def midError (c : Codes) : NpError := NewNpError c.codeMIDErr (c.codeStr c.codeMIDErr)

/-- Embedded `proto.RoomInfo` of a join message. -/
structure RoomInfo where
  RID : String
  UID : String
deriving DecidableEq, Repr

/-- Message `proto.JoinMsg`: the embedded room info and the user info blob. -/
structure JoinMsg where
  RID : String
  UID : String
  Info : String
deriving DecidableEq, Repr

def JoinMsg.RoomInfo (msg : JoinMsg) : RoomInfo := ⟨msg.RID, msg.UID⟩

structure LeaveMsg where
  RID : String
  UID : String
  Info : String
deriving DecidableEq, Repr

/-- Session description (`Type`, `SDP`). -/
structure Jsep where
  Typ : String
  SDP : String
deriving DecidableEq, Repr

structure PublishOptions where
  Codec : String
  Bandwidth : Int
  TransportCC : Bool
deriving DecidableEq, Repr

structure PublishMsg where
  Description : Jsep
  Options : PublishOptions
deriving DecidableEq, Repr

structure UnpublishMsg where
  RID : String
  MID : String
deriving DecidableEq, Repr

structure SubscribeMsg where
  MID : String
  Description : Jsep
deriving DecidableEq, Repr

structure UnsubscribeMsg where
  MID : String
deriving DecidableEq, Repr

structure BroadcastMsg where
  RID : String
  UID : String
  Info : String
deriving DecidableEq, Repr

/-- One element of `GetPubResp.Pubs`.  Only `MID` is inspected by the
coordinator; the remaining fields travel as one blob. -/
structure PubInfo where
  MID : String
  rest : String
deriving DecidableEq, Repr

structure GetPubResp where
  Pubs : List PubInfo
deriving DecidableEq, Repr

/-- Request sent by `sfuClient.Publish`. -/
structure PublishRequest where
  Rid : String
  Codec : String
  Bandwidth : Nat
  Transportcc : Bool
  Typ : String
  Sdp : String
deriving DecidableEq, Repr

/-- Message received on the publish stream: `Mediainfo.Mid`, `Stream` and
the answer description. -/
structure PublishReply where
  Mid : String
  Stream : String
  Sdp : String
deriving DecidableEq, Repr

/-- Method names of package `proto` used by the coordinator. -/
inductive Method where
  | IslbClientOnJoin
  | IslbClientOnLeave
  | IslbGetPubs
  | IslbOnStreamAdd
  | IslbOnStreamRemove
  | IslbOnBroadcast
  | ClientOnStreamAdd
deriving DecidableEq, Repr

/-- Request and notification bodies: a `util.Map(k1, v1, ...)`, the room info
of a join message, or `proto.StreamAddMsg(pub)`. -/
inductive Payload where
  | map (kvs : List (String × String))
  | roomInfo (r : RoomInfo)
  | streamAdd (pub : PubInfo)
deriving DecidableEq, Repr

/-- Closures passed to `AsyncRequest(..).Then`: none, or the pair registered
by `join` for the peer. -/
inductive Cont where
  | none
  | joinPubs (peer : Peer)
deriving DecidableEq, Repr

/-- Goroutines started by the actions: the stream monitor of `publish`,
closed over `rid`, `nid`, `uid` and `mid`. -/
inductive Task where
  | monitor (rid nid uid mid : String)
deriving DecidableEq, Repr

/-- External calls, in the order the code issues them. -/
inductive Event where
  | getRPCForIslb
  | getRPCForSFU (mid : String)
  | SyncRequest (m : Method) (p : Payload)
  | AsyncRequest (m : Method) (p : Payload) (k : Cont)
  | Publish (nid : String) (req : PublishRequest)
  | Recv
  | Unpublish (nid mid : String)
  | Subscribe (nid mid typ sdp : String)
  | Unsubscribe (nid mid : String)
  | go (t : Task)
  | Notify (peer : String) (m : Method) (p : Payload)
deriving DecidableEq, Repr

/-- Remote calls: requests to the islb node and gRPC calls on an sfu client.
Node discovery, goroutine start and notifications to the local peer are not. -/
def Event.isRemote : Event → Bool
  | .SyncRequest _ _ => true
  | .AsyncRequest _ _ _ => true
  | .Publish _ _ => true
  | .Recv => true
  | .Unpublish _ _ => true
  | .Subscribe _ _ _ _ => true
  | .Unsubscribe _ _ => true
  | _ => false

/-- Goroutine starts. -/
def Event.isGo : Event → Bool
  | .go _ => true
  | _ => false

/-- Requests addressed to the islb (directory) node. -/
def Event.isIslbCall : Event → Bool
  | .SyncRequest _ _ => true
  | .AsyncRequest _ _ _ => true
  | _ => false

/-- Value returned by an action next to a nil error. -/
inductive Reply where
  | emptyMap
  | publish (answer : PublishReply)
  | subscribe (answer : String)
  | unsubscribe (result : String)
deriving DecidableEq, Repr

/-! ## Registry -/

/-- Modelled from the spec: the Peer/Room Registry of package `signal`
(`AddPeer`, `DelPeer`, `HasPeer`, `GetRoomByPeer`), whose source is absent.
It maps rooms to peers; an entry is a (room ID, peer ID) pair and each pair
occurs at most once. -/
structure Registry where
  entries : List (String × String)
  nodup : entries.Nodup

/-- Modelled from the spec: membership test of the registry. -/
def HasPeer (reg : Registry) (rid : String) (peer : Peer) : Bool :=
  decide ((rid, peer.id) ∈ reg.entries)

/-- Modelled from the spec: `AddPeer` inserts the peer into the member set of
the room and is a no-op when the peer is already present. -/
def AddPeer (reg : Registry) (rid : String) (peer : Peer) : Registry :=
  if h : (rid, peer.id) ∈ reg.entries then reg
  else ⟨(rid, peer.id) :: reg.entries, List.nodup_cons.mpr ⟨h, reg.nodup⟩⟩

/-- Modelled from the spec: `DelPeer` removes the peer from the room if
present and is a no-op otherwise. -/
def DelPeer (reg : Registry) (rid : String) (id : String) : Registry :=
  ⟨reg.entries.filter (fun e => decide (e ≠ (rid, id))), reg.nodup.filter _⟩

/-- Modelled from the spec: reverse lookup of the room a peer is in. -/
def GetRoomByPeer (reg : Registry) (id : String) : Option String :=
  (reg.entries.find? (fun e => decide (e.2 = id))).map Prod.fst

/-- Number of registry entries for the peer `id` in the room `rid`. -/
def entryCount (reg : Registry) (rid : String) (id : String) : Nat :=
  (reg.entries.filter (fun e => decide (e = (rid, id)))).length

/-! ## Environment and outcomes -/

/-- Outcomes of the external calls of one action.  `islb` is the `found`
flag of `getRPCForIslb`; `sfu key` is the node ID or the error of
`getRPCForSFU(key)`; the other fields are the results of the request of the
same name. -/
structure Env where
  islb : Bool
  sfu : String → Except String String
  SyncRequest : Method → Payload → Except String Unit
  Publish : Except String Unit
  Recv : Except String PublishReply
  Unpublish : Except String Unit
  Subscribe : Except String String
  Unsubscribe : Except String String

/-- What an action leaves behind: the Go return pair, the registry and the
external calls issued before returning. -/
structure Out where
  result : Except NpError Reply
  reg : Registry
  trace : List Event

/-- No remote call occurs among the external calls of the action. -/
def Out.noRemoteCall (o : Out) : Bool := o.trace.all (fun e => !e.isRemote)

/-- Text of the error returned when no islb node is found. -/
def islbNotFound : NpError := NewNpError 500 "Not found any node for islb."

/-! ## Actions -/

/-- The loop over `resMsg.Pubs` in the success closure of `join`. -/
def notifyPubs (peer : Peer) : List PubInfo → List Event
  | [] => []
  | pub :: rest =>
    if pub.MID = "" then notifyPubs peer rest
    else Event.Notify peer.id Method.ClientOnStreamAdd (Payload.streamAdd pub) :: notifyPubs peer rest

/-- Success closure of the `IslbGetPubs` request of `join`; the argument is
the outcome of `result.Unmarshal`. -/
def joinThen (peer : Peer) (unmarshal : Except String GetPubResp) : List Event :=
  match unmarshal with
  | .error _ => []
  | .ok resMsg => notifyPubs peer resMsg.Pubs

/-- Failure closure of the `IslbGetPubs` request of `join`. -/
def joinCatch (_peer : Peer) (_err : NpError) : List Event := []

/-- Reply delivered to an asynchronous request: a raw result (given by the
outcome of unmarshalling it) or an error. -/
inductive AsyncReply where
  | result (unmarshal : Except String GetPubResp)
  | err (e : NpError)

/-- Runs the closure registered with an asynchronous request. -/
def runCont : Cont → AsyncReply → List Event
  | .none, _ => []
  | .joinPubs peer, .result r => joinThen peer r
  | .joinPubs peer, .err e => joinCatch peer e

def join (c : Codes) (env : Env) (reg : Registry) (peer : Peer) (msg : JoinMsg) : Out :=
  let rid := msg.RID
  if msg.RID = "" then ⟨.error (ridError c), reg, []⟩
  else if HasPeer reg rid peer then ⟨.ok .emptyMap, reg, []⟩
  else
    let reg1 := AddPeer reg rid peer
    if !env.islb then ⟨.error islbNotFound, reg1, [.getRPCForIslb]⟩
    else
      let info := msg.Info
      let uid := peer.id
      let onJoin := Payload.map [("rid", rid), ("uid", uid), ("info", info)]
      let done : Out :=
        ⟨.ok .emptyMap, reg1,
          [.getRPCForIslb, .SyncRequest .IslbClientOnJoin onJoin,
           .AsyncRequest .IslbGetPubs (.roomInfo msg.RoomInfo) (.joinPubs peer)]⟩
      match env.SyncRequest .IslbClientOnJoin onJoin with
      | .error _ => done
      | .ok _ => done

def leave (c : Codes) (env : Env) (reg : Registry) (peer : Peer) (msg : LeaveMsg) : Out :=
  let rid := msg.RID
  if msg.RID = "" then ⟨.error (ridError c), reg, []⟩
  else
    let uid := peer.id
    if !env.islb then ⟨.error islbNotFound, reg, [.getRPCForIslb]⟩
    else
      let p := Payload.map [("rid", rid), ("uid", uid)]
      let done : Out :=
        ⟨.ok .emptyMap, DelPeer reg rid peer.id,
          [.getRPCForIslb, .AsyncRequest .IslbOnStreamRemove p .none,
           .SyncRequest .IslbClientOnLeave p]⟩
      match env.SyncRequest .IslbClientOnLeave p with
      | .error _ => done
      | .ok _ => done

def publish (c : Codes) (env : Env) (reg : Registry) (peer : Peer) (msg : PublishMsg) : Out :=
  match env.sfu "" with
  | .error err => ⟨.error (NewNpError 500 err), reg, [.getRPCForSFU ""]⟩
  | .ok nid =>
    let jsep := msg.Description
    let options := msg.Options
    match GetRoomByPeer reg peer.id with
    | none => ⟨.error (NewNpError c.codeRoomErr (c.codeStr c.codeRoomErr)), reg, [.getRPCForSFU ""]⟩
    | some rid =>
      let uid := peer.id
      let req : PublishRequest :=
        ⟨"default", options.Codec, (options.Bandwidth % 4294967296).toNat, options.TransportCC,
          jsep.Typ, jsep.SDP⟩
      match env.Publish with
      | .error err => ⟨.error (NewNpError 500 err), reg, [.getRPCForSFU "", .Publish nid req]⟩
      | .ok _ =>
        match env.Recv with
        | .error err =>
          ⟨.error (NewNpError 500 err), reg, [.getRPCForSFU "", .Publish nid req, .Recv]⟩
        | .ok answer =>
          if !env.islb then
            ⟨.error islbNotFound, reg, [.getRPCForSFU "", .Publish nid req, .Recv, .getRPCForIslb]⟩
          else
            let mid := answer.Mid
            ⟨.ok (.publish answer), reg,
              [.getRPCForSFU "", .Publish nid req, .Recv, .getRPCForIslb,
               .AsyncRequest .IslbOnStreamAdd
                 (.map [("rid", rid), ("nid", nid), ("uid", uid), ("mid", mid),
                        ("stream", answer.Stream)]) .none,
               .go (.monitor rid nid uid mid)]⟩

/-- Body of a goroutine.  `next` is the outcome of the blocking
`stream.Recv()` of the monitor: `none` while it has not returned, otherwise
the message or the error it returned. -/
def runTask : Task → Option (Except String PublishReply) → List Event
  | .monitor _ _ _ _, none => []
  | .monitor rid nid uid mid, some _ =>
    [.Recv,
     .AsyncRequest .IslbOnStreamRemove
       (.map [("rid", rid), ("nid", nid), ("uid", uid), ("mid", mid)]) .none]

def unpublish (_c : Codes) (env : Env) (reg : Registry) (peer : Peer) (msg : UnpublishMsg) : Out :=
  let mid := msg.MID
  let rid := msg.RID
  let uid := peer.id
  match env.sfu mid with
  | .error err => ⟨.error (NewNpError 500 err), reg, [.getRPCForSFU mid]⟩
  | .ok nid =>
    match env.Unpublish with
    | .error _ =>
      ⟨.error (NewNpError 500 "error subscribing to stream"), reg,
        [.getRPCForSFU mid, .Unpublish nid mid]⟩
    | .ok _ =>
      if !env.islb then
        ⟨.error islbNotFound, reg, [.getRPCForSFU mid, .Unpublish nid mid, .getRPCForIslb]⟩
      else
        ⟨.ok .emptyMap, reg,
          [.getRPCForSFU mid, .Unpublish nid mid, .getRPCForIslb,
           .AsyncRequest .IslbOnStreamRemove
             (.map [("rid", rid), ("uid", uid), ("mid", mid)]) .none]⟩

def subscribe (c : Codes) (env : Env) (reg : Registry) (_peer : Peer) (msg : SubscribeMsg) : Out :=
  let mid := msg.MID
  if mid = "" then ⟨.error (midError c), reg, []⟩
  else if msg.Description.SDP = "" then ⟨.error (jsepError c), reg, []⟩
  else
    match env.sfu mid with
    | .error err => ⟨.error (NewNpError 500 err), reg, [.getRPCForSFU mid]⟩
    | .ok nodeID =>
      let jsep := msg.Description
      match env.Subscribe with
      | .error _ =>
        ⟨.error (NewNpError 500 "error subscribing to stream"), reg,
          [.getRPCForSFU mid, .Subscribe nodeID msg.MID jsep.Typ jsep.SDP]⟩
      | .ok answer =>
        ⟨.ok (.subscribe answer), reg,
          [.getRPCForSFU mid, .Subscribe nodeID msg.MID jsep.Typ jsep.SDP]⟩

def unsubscribe (c : Codes) (env : Env) (reg : Registry) (_peer : Peer) (msg : UnsubscribeMsg) : Out :=
  let mid := msg.MID
  if mid = "" then ⟨.error (midError c), reg, []⟩
  else
    match env.sfu mid with
    | .error err => ⟨.error (NewNpError 500 err), reg, [.getRPCForSFU mid]⟩
    | .ok nid =>
      match env.Unsubscribe with
      | .error err =>
        ⟨.error (NewNpError 500 err), reg, [.getRPCForSFU mid, .Unsubscribe nid mid]⟩
      | .ok result =>
        ⟨.ok (.unsubscribe result), reg, [.getRPCForSFU mid, .Unsubscribe nid mid]⟩

def broadcast (c : Codes) (env : Env) (reg : Registry) (_peer : Peer) (msg : BroadcastMsg) : Out :=
  if msg.RID = "" ∨ msg.UID = "" then ⟨.error (ridError c), reg, []⟩
  else if !env.islb then ⟨.error islbNotFound, reg, [.getRPCForIslb]⟩
  else
    ⟨.ok .emptyMap, reg,
      [.getRPCForIslb,
       .AsyncRequest .IslbOnBroadcast
         (.map [("rid", msg.RID), ("uid", msg.UID), ("info", msg.Info)]) .none]⟩

/-! ## Sample inputs -/

/-- Sample error codes. -/
def sampleCodes : Codes := ⟨-1, -2, -3, fun code => toString code⟩

/-- Environment in which every node is found and every call succeeds. -/
def envOk : Env :=
  { islb := true
    sfu := fun _ => .ok "sfu-1"
    SyncRequest := fun _ _ => .ok ()
    Publish := .ok ()
    Recv := .ok ⟨"m1", "stream-1", "answer"⟩
    Unpublish := .ok ()
    Subscribe := .ok "answer"
    Unsubscribe := .ok "done" }

/-- Environment in which every node is found and every call made through a
found node returns the error `boom`. -/
def envCallsFail : Env :=
  { islb := true
    sfu := fun _ => .ok "sfu-1"
    SyncRequest := fun _ _ => .error "boom"
    Publish := .error "boom"
    Recv := .error "boom"
    Unpublish := .error "boom"
    Subscribe := .error "boom"
    Unsubscribe := .error "boom" }

/-- Environment in which the sfu node is found and its calls succeed, but no
islb node is found. -/
def envNoIslb : Env :=
  { envOk with islb := false }

/-- Environment in which no sfu node is found. -/
def envNoSfu : Env :=
  { envOk with sfu := fun _ => .error "Not found any node for sfu." }

/-- The empty registry. -/
def emptyRegistry : Registry := ⟨[], List.nodup_nil⟩

/-- Registry in which peer `alice` is in room `r1`. -/
def aliceInR1 : Registry := ⟨[("r1", "alice")], List.nodup_singleton _⟩

def alice : Peer := ⟨"alice"⟩

/-! ## Registry lemmas -/

theorem HasPeer_AddPeer (reg : Registry) (rid : String) (peer : Peer) :
    HasPeer (AddPeer reg rid peer) rid peer = true := by
  unfold HasPeer AddPeer
  split <;> simp_all

theorem HasPeer_DelPeer (reg : Registry) (rid : String) (peer : Peer) :
    HasPeer (DelPeer reg rid peer.id) rid peer = false := by
  simp [HasPeer, DelPeer]

theorem length_filter_eq_of_nodup {α : Type} [DecidableEq α] (a : α) :
    ∀ l : List α, l.Nodup → a ∈ l → (l.filter (fun e => decide (e = a))).length = 1
  | [], _, hm => by simp at hm
  | b :: l, hn, hm => by
    have hb : b ∉ l := (List.nodup_cons.mp hn).1
    have hl : l.Nodup := (List.nodup_cons.mp hn).2
    by_cases hba : b = a
    · subst hba
      have hnone : l.filter (fun e => decide (e = b)) = [] := by
        rw [List.filter_eq_nil_iff]
        intro x hx
        simp only [decide_eq_true_eq]
        rintro rfl
        exact hb hx
      simp [hnone]
    · have hm2 : a ∈ l := by
        rcases List.mem_cons.mp hm with h | h
        · exact absurd h.symm hba
        · exact h
      simp [hba, length_filter_eq_of_nodup a l hl hm2]

theorem entryCount_of_HasPeer (reg : Registry) (rid : String) (peer : Peer)
    (h : HasPeer reg rid peer = true) : entryCount reg rid peer.id = 1 := by
  have hm : (rid, peer.id) ∈ reg.entries := by simpa [HasPeer] using h
  exact length_filter_eq_of_nodup _ _ reg.nodup hm

/-- A join with a non-empty room ID always leaves the peer in the room. -/
theorem HasPeer_join (c : Codes) (env : Env) (reg : Registry) (peer : Peer) (msg : JoinMsg)
    (hrid : msg.RID ≠ "") : HasPeer (join c env reg peer msg).reg msg.RID peer = true := by
  unfold join
  simp only [hrid, if_false]
  by_cases hp : HasPeer reg msg.RID peer = true
  · simp [hp]
  · simp only [hp]
    cases env.islb
    · simp [HasPeer_AddPeer]
    · simp only [Bool.not_true, Bool.false_eq_true, if_false]
      split <;> simp [HasPeer_AddPeer]

/-- A join of a peer that is already in the room does nothing. -/
theorem join_member (c : Codes) (env : Env) (reg : Registry) (peer : Peer) (msg : JoinMsg)
    (hrid : msg.RID ≠ "") (hp : HasPeer reg msg.RID peer = true) :
    join c env reg peer msg = ⟨.ok .emptyMap, reg, []⟩ := by
  unfold join
  simp [hrid, hp]

/-! ## Join and leave -/

/-- C1: for every registry, peer and leave message with a non-empty room ID,
if the islb node is found then `leave` returns the empty map and the peer is
not a member of that room in the resulting registry, whatever the
`IslbClientOnLeave` request returns (the environment is arbitrary). -/
theorem leave_clears_membership (c : Codes) (env : Env) (reg : Registry) (peer : Peer)
    (msg : LeaveMsg) (hrid : msg.RID ≠ "") (hislb : env.islb = true) :
    (leave c env reg peer msg).result = .ok .emptyMap ∧
    HasPeer (leave c env reg peer msg).reg msg.RID peer = false := by
  unfold leave
  simp only [hrid, if_false, hislb, Bool.not_true, Bool.false_eq_true]
  split <;> exact ⟨rfl, HasPeer_DelPeer reg msg.RID peer⟩

theorem leave_clears_membership_witness :
    (leave sampleCodes envCallsFail aliceInR1 alice ⟨"r1", "alice", ""⟩).result = .ok .emptyMap ∧
    HasPeer (leave sampleCodes envCallsFail aliceInR1 alice ⟨"r1", "alice", ""⟩).reg "r1" alice
      = false :=
  leave_clears_membership sampleCodes envCallsFail aliceInR1 alice ⟨"r1", "alice", ""⟩
    (by decide) rfl

/-- C2: for every registry, peer and join message with a non-empty room ID,
two joins in sequence (each with its own, arbitrary outcomes of the external
calls) leave exactly one registry entry for the peer in the room, and the
second join returns the empty map, changes nothing and issues no external
call at all: no node discovery, no request. -/
theorem join_twice (c : Codes) (env1 env2 : Env) (reg : Registry) (peer : Peer)
    (msg : JoinMsg) (hrid : msg.RID ≠ "") :
    entryCount (join c env2 (join c env1 reg peer msg).reg peer msg).reg msg.RID peer.id = 1 ∧
    (join c env2 (join c env1 reg peer msg).reg peer msg).result = .ok .emptyMap ∧
    (join c env2 (join c env1 reg peer msg).reg peer msg).trace = [] ∧
    (join c env2 (join c env1 reg peer msg).reg peer msg).reg = (join c env1 reg peer msg).reg := by
  have h1 := HasPeer_join c env1 reg peer msg hrid
  rw [join_member c env2 _ peer msg hrid h1]
  exact ⟨entryCount_of_HasPeer _ _ _ h1, rfl, rfl, rfl⟩

theorem join_twice_witness :
    entryCount (join sampleCodes envOk (join sampleCodes envNoIslb emptyRegistry alice
      ⟨"r1", "alice", ""⟩).reg alice ⟨"r1", "alice", ""⟩).reg "r1" "alice" = 1 :=
  (join_twice sampleCodes envNoIslb envOk emptyRegistry alice ⟨"r1", "alice", ""⟩
    (by decide)).1

/-- C7: `join` returns an error exactly when the room ID is empty or the peer
is not yet a member of the room and no islb node is found; the error is
`ridError` in the first case and code 500 in the second; in every other case,
whatever the `IslbClientOnJoin` request returns, the result is the empty map. -/
theorem join_error_iff (c : Codes) (env : Env) (reg : Registry) (peer : Peer) (msg : JoinMsg) :
    ((∃ e, (join c env reg peer msg).result = .error e) ↔
      (msg.RID = "" ∨ (HasPeer reg msg.RID peer = false ∧ env.islb = false))) ∧
    (msg.RID = "" → (join c env reg peer msg).result = .error (ridError c)) ∧
    (msg.RID ≠ "" → HasPeer reg msg.RID peer = false → env.islb = false →
      (join c env reg peer msg).result
        = .error (NewNpError 500 "Not found any node for islb.")) ∧
    (¬ (msg.RID = "" ∨ (HasPeer reg msg.RID peer = false ∧ env.islb = false)) →
      (join c env reg peer msg).result = .ok .emptyMap) := by
  unfold join
  by_cases hrid : msg.RID = ""
  · simp [hrid]
  · by_cases hp : HasPeer reg msg.RID peer = true
    · simp [hrid, hp]
    · have hp2 : HasPeer reg msg.RID peer = false := by simpa using hp
      cases hi : env.islb
      · simp [hrid, hp2, islbNotFound]
      · simp only [hrid, hp2, Bool.not_true, Bool.false_eq_true, if_false]
        split <;> simp

theorem join_error_iff_witness :
    (join sampleCodes envCallsFail emptyRegistry alice ⟨"r1", "alice", ""⟩).result
      = .ok .emptyMap :=
  (join_error_iff sampleCodes envCallsFail emptyRegistry alice ⟨"r1", "alice", ""⟩).2.2.2
    (by decide)

/-- C10: when the room ID is non-empty, the peer is not yet a member and no
islb node is found, `join` returns the code-500 error and yet the peer is a
member of the room in the resulting registry; a following join of the same
peer and room (with arbitrary outcomes of its external calls) returns the
empty map without any external call, so that no `IslbClientOnJoin` request
occurs in the calls of either join. -/
theorem join_not_atomic (c : Codes) (env env2 : Env) (reg : Registry) (peer : Peer)
    (msg : JoinMsg) (hrid : msg.RID ≠ "") (hp : HasPeer reg msg.RID peer = false)
    (hislb : env.islb = false) :
    (join c env reg peer msg).result = .error (NewNpError 500 "Not found any node for islb.") ∧
    HasPeer (join c env reg peer msg).reg msg.RID peer = true ∧
    (join c env2 (join c env reg peer msg).reg peer msg).result = .ok .emptyMap ∧
    (join c env2 (join c env reg peer msg).reg peer msg).trace = [] ∧
    ∀ p, Event.SyncRequest .IslbClientOnJoin p ∉
      (join c env reg peer msg).trace ++
        (join c env2 (join c env reg peer msg).reg peer msg).trace := by
  have h1 := HasPeer_join c env reg peer msg hrid
  rw [join_member c env2 _ peer msg hrid h1]
  refine ⟨?_, h1, rfl, rfl, ?_⟩
  · unfold join
    simp [hrid, hp, hislb, islbNotFound]
  · intro p
    unfold join
    simp [hrid, hp, hislb]

theorem join_not_atomic_witness :
    (join sampleCodes envNoIslb emptyRegistry alice ⟨"r1", "alice", ""⟩).result
      = .error (NewNpError 500 "Not found any node for islb.") ∧
    HasPeer (join sampleCodes envNoIslb emptyRegistry alice ⟨"r1", "alice", ""⟩).reg "r1" alice
      = true :=
  ⟨(join_not_atomic sampleCodes envNoIslb envOk emptyRegistry alice ⟨"r1", "alice", ""⟩
      (by decide) (by decide) rfl).1,
   (join_not_atomic sampleCodes envNoIslb envOk emptyRegistry alice ⟨"r1", "alice", ""⟩
      (by decide) (by decide) rfl).2.1⟩

/-! ## Validation -/

/-- C3: a message that fails validation is rejected with its fixed error, the
registry is returned unchanged and the list of external calls is empty (no
node discovery, no request): `join` and `leave` with an empty room ID and
`broadcast` with an empty room ID or an empty uid give `ridError`,
`subscribe` with an empty mid gives `midError` (whatever the SDP),
`subscribe` with a non-empty mid and an empty SDP gives `jsepError`, and
`unsubscribe` with an empty mid gives `midError`. -/
theorem validation_rejects (c : Codes) (env : Env) (reg : Registry) (peer : Peer) :
    (∀ msg : JoinMsg, msg.RID = "" → join c env reg peer msg = ⟨.error (ridError c), reg, []⟩) ∧
    (∀ msg : LeaveMsg, msg.RID = "" →
      leave c env reg peer msg = ⟨.error (ridError c), reg, []⟩) ∧
    (∀ msg : BroadcastMsg, msg.RID = "" ∨ msg.UID = "" →
      broadcast c env reg peer msg = ⟨.error (ridError c), reg, []⟩) ∧
    (∀ msg : SubscribeMsg, msg.MID = "" →
      subscribe c env reg peer msg = ⟨.error (midError c), reg, []⟩) ∧
    (∀ msg : SubscribeMsg, msg.MID ≠ "" → msg.Description.SDP = "" →
      subscribe c env reg peer msg = ⟨.error (jsepError c), reg, []⟩) ∧
    (∀ msg : UnsubscribeMsg, msg.MID = "" →
      unsubscribe c env reg peer msg = ⟨.error (midError c), reg, []⟩) := by
  refine ⟨?_, ?_, ?_, ?_, ?_, ?_⟩
  · intro msg h
    simp [join, h]
  · intro msg h
    simp [leave, h]
  · intro msg h
    unfold broadcast
    rw [if_pos h]
  · intro msg h
    simp [subscribe, h]
  · intro msg h1 h2
    simp [subscribe, h1, h2]
  · intro msg h
    simp [unsubscribe, h]

theorem validation_rejects_witness :
    subscribe sampleCodes envOk aliceInR1 alice ⟨"", ⟨"offer", ""⟩⟩
      = ⟨.error (midError sampleCodes), aliceInR1, []⟩ ∧
    subscribe sampleCodes envOk aliceInR1 alice ⟨"m1", ⟨"offer", ""⟩⟩
      = ⟨.error (jsepError sampleCodes), aliceInR1, []⟩ ∧
    broadcast sampleCodes envOk aliceInR1 alice ⟨"r1", "", "hello"⟩
      = ⟨.error (ridError sampleCodes), aliceInR1, []⟩ :=
  ⟨(validation_rejects sampleCodes envOk aliceInR1 alice).2.2.2.1 ⟨"", ⟨"offer", ""⟩⟩ rfl,
   (validation_rejects sampleCodes envOk aliceInR1 alice).2.2.2.2.1 ⟨"m1", ⟨"offer", ""⟩⟩
     (by decide) rfl,
   (validation_rejects sampleCodes envOk aliceInR1 alice).2.2.1 ⟨"r1", "", "hello"⟩
     (Or.inr rfl)⟩

/-! ## Catch-up notifications of join -/

theorem notifyPubs_eq (peer : Peer) (pubs : List PubInfo) :
    notifyPubs peer pubs =
      (pubs.filter (fun pub => decide (pub.MID ≠ ""))).map
        (fun pub => Event.Notify peer.id .ClientOnStreamAdd (.streamAdd pub)) := by
  induction pubs with
  | nil => rfl
  | cons pub rest ih =>
    by_cases h : pub.MID = ""
    · simp [notifyPubs, h, ih]
    · simp [notifyPubs, h, ih]

/-- C8: the only closure pair `join` registers is the one for `IslbGetPubs`,
and a join that reaches the islb node registers it.  Run on a decoded
response, its success closure pushes to the joining peer one
`ClientOnStreamAdd` notification per returned stream with a non-empty MID,
in response order and carrying that stream record, and none for a stream
with an empty MID; their number is the number of returned streams with a
non-empty MID (zero for an empty response).  The failure closure pushes
nothing. -/
theorem join_catchup_notifications (c : Codes) (env : Env) (reg : Registry) (peer : Peer)
    (msg : JoinMsg) (resMsg : GetPubResp) :
    (∀ m p k, Event.AsyncRequest m p k ∈ (join c env reg peer msg).trace →
      m = .IslbGetPubs ∧ k = .joinPubs peer) ∧
    (msg.RID ≠ "" → HasPeer reg msg.RID peer = false → env.islb = true →
      Event.AsyncRequest .IslbGetPubs (.roomInfo msg.RoomInfo) (.joinPubs peer)
        ∈ (join c env reg peer msg).trace) ∧
    runCont (.joinPubs peer) (.result (.ok resMsg)) =
      (resMsg.Pubs.filter (fun pub => decide (pub.MID ≠ ""))).map
        (fun pub => Event.Notify peer.id .ClientOnStreamAdd (.streamAdd pub)) ∧
    (runCont (.joinPubs peer) (.result (.ok resMsg))).length =
      resMsg.Pubs.countP (fun pub => decide (pub.MID ≠ "")) ∧
    (resMsg.Pubs = [] → runCont (.joinPubs peer) (.result (.ok resMsg)) = []) ∧
    (∀ e, runCont (.joinPubs peer) (.err e) = []) := by
  refine ⟨?_, ?_, ?_, ?_, ?_, ?_⟩
  · intro m p k
    unfold join
    by_cases hrid : msg.RID = ""
    · simp [hrid]
    · by_cases hp : HasPeer reg msg.RID peer = true
      · simp [hrid, hp]
      · cases hi : env.islb
        · simp [hrid, hp]
        · simp only [hrid, hp, Bool.not_true, Bool.false_eq_true, if_false]
          split <;> simp <;> intro h1 _ h3 <;> exact ⟨h1, h3⟩
  · intro hrid hp hi
    unfold join
    simp only [hrid, hp, hi, Bool.not_true, Bool.false_eq_true, if_false]
    split <;> simp
  · simp [runCont, joinThen, notifyPubs_eq]
  · simp [runCont, joinThen, notifyPubs_eq, List.countP_eq_length_filter]
  · intro h
    simp [runCont, joinThen, h, notifyPubs]
  · intro e
    rfl

theorem join_catchup_notifications_witness :
    Event.AsyncRequest .IslbGetPubs (.roomInfo ⟨"r1", "alice"⟩) (.joinPubs alice)
        ∈ (join sampleCodes envOk emptyRegistry alice ⟨"r1", "alice", ""⟩).trace ∧
    runCont (.joinPubs alice) (.result (.ok ⟨[⟨"m1", "a"⟩, ⟨"", "b"⟩, ⟨"m2", "c"⟩]⟩)) =
      [Event.Notify "alice" .ClientOnStreamAdd (.streamAdd ⟨"m1", "a"⟩),
       Event.Notify "alice" .ClientOnStreamAdd (.streamAdd ⟨"m2", "c"⟩)] :=
  ⟨(join_catchup_notifications sampleCodes envOk emptyRegistry alice ⟨"r1", "alice", ""⟩
      ⟨[]⟩).2.1 (by decide) (by decide) rfl,
   ((join_catchup_notifications sampleCodes envOk emptyRegistry alice ⟨"r1", "alice", ""⟩
      ⟨[⟨"m1", "a"⟩, ⟨"", "b"⟩, ⟨"m2", "c"⟩]⟩).2.2.1).trans (by decide)⟩

/-! ## Publish and the stream monitor -/

/-- C6: when `publish` returns successfully, what it returns is the first
message received on the stream; the requests it has sent to the islb node
before returning are exactly one `IslbOnStreamAdd` carrying rid, nid, uid,
mid and the stream info; it has started exactly one goroutine, the monitor
for the same rid, nid, uid and mid.  The monitor issues nothing while its
`Recv` has not returned, and once it has returned (with a message or with an
error) it has issued exactly one `IslbOnStreamRemove` carrying the same rid,
nid, uid and mid, after the `Recv`. -/
theorem publish_lifecycle (c : Codes) (env : Env) (reg : Registry) (peer : Peer)
    (msg : PublishMsg) (r : Reply) (h : (publish c env reg peer msg).result = .ok r) :
    ∃ rid nid answer,
      GetRoomByPeer reg peer.id = some rid ∧ env.sfu "" = .ok nid ∧
      env.Recv = .ok answer ∧ r = .publish answer ∧
      (publish c env reg peer msg).trace.filter Event.isIslbCall =
        [.AsyncRequest .IslbOnStreamAdd
          (.map [("rid", rid), ("nid", nid), ("uid", peer.id), ("mid", answer.Mid),
                 ("stream", answer.Stream)]) .none] ∧
      (publish c env reg peer msg).trace.filter Event.isGo =
        [.go (.monitor rid nid peer.id answer.Mid)] ∧
      runTask (.monitor rid nid peer.id answer.Mid) none = [] ∧
      ∀ next, runTask (.monitor rid nid peer.id answer.Mid) (some next) =
        [.Recv,
         .AsyncRequest .IslbOnStreamRemove
           (.map [("rid", rid), ("nid", nid), ("uid", peer.id), ("mid", answer.Mid)]) .none] := by
  cases h1 : env.sfu "" with
  | error e => simp [publish, h1] at h
  | ok nid =>
    cases h2 : GetRoomByPeer reg peer.id with
    | none => simp [publish, h1, h2] at h
    | some rid =>
      cases h3 : env.Publish with
      | error e => simp [publish, h1, h2, h3] at h
      | ok u =>
        cases h4 : env.Recv with
        | error e => simp [publish, h1, h2, h3, h4] at h
        | ok answer =>
          cases h5 : env.islb with
          | false => simp [publish, h1, h2, h3, h4, h5] at h
          | true =>
            simp only [publish, h1, h2, h3, h4, h5, Bool.not_true, Bool.false_eq_true,
              if_false, Except.ok.injEq] at h
            refine ⟨rid, nid, answer, rfl, rfl, rfl, h.symm, ?_, ?_, rfl, fun _ => rfl⟩
            · simp [publish, h1, h2, h3, h4, h5, Event.isIslbCall]
            · simp [publish, h1, h2, h3, h4, h5, Event.isGo]

theorem publish_lifecycle_witness :
    ∃ rid nid answer,
      GetRoomByPeer aliceInR1 alice.id = some rid ∧ envOk.sfu "" = .ok nid ∧
      envOk.Recv = .ok answer ∧ Reply.publish ⟨"m1", "stream-1", "answer"⟩ = .publish answer ∧
      (publish sampleCodes envOk aliceInR1 alice
          ⟨⟨"offer", "v=0"⟩, ⟨"vp8", 1000, true⟩⟩).trace.filter Event.isIslbCall =
        [.AsyncRequest .IslbOnStreamAdd
          (.map [("rid", rid), ("nid", nid), ("uid", alice.id), ("mid", answer.Mid),
                 ("stream", answer.Stream)]) .none] ∧
      (publish sampleCodes envOk aliceInR1 alice
          ⟨⟨"offer", "v=0"⟩, ⟨"vp8", 1000, true⟩⟩).trace.filter Event.isGo =
        [.go (.monitor rid nid alice.id answer.Mid)] ∧
      runTask (.monitor rid nid alice.id answer.Mid) none = [] ∧
      ∀ next, runTask (.monitor rid nid alice.id answer.Mid) (some next) =
        [.Recv,
         .AsyncRequest .IslbOnStreamRemove
           (.map [("rid", rid), ("nid", nid), ("uid", alice.id), ("mid", answer.Mid)]) .none] :=
  publish_lifecycle sampleCodes envOk aliceInR1 alice ⟨⟨"offer", "v=0"⟩, ⟨"vp8", 1000, true⟩⟩
    (.publish ⟨"m1", "stream-1", "answer"⟩) rfl

/-! ## Unpublish and the islb node -/

/-- C4 fails as stated: with the sfu node for `m1` found and the `Unpublish`
call on it successful, but no islb node found, `unpublish` returns the
code-500 error and not the empty map. -/
theorem unpublish_fails_without_islb :
    envNoIslb.sfu "m1" = .ok "sfu-1" ∧ envNoIslb.Unpublish = .ok () ∧
    (unpublish sampleCodes envNoIslb aliceInR1 alice ⟨"r1", "m1"⟩).result
      = .error (NewNpError 500 "Not found any node for islb.") ∧
    (unpublish sampleCodes envNoIslb aliceInR1 alice ⟨"r1", "m1"⟩).result ≠ .ok .emptyMap := by
  refine ⟨rfl, rfl, rfl, ?_⟩
  intro h
  simp [unpublish, envNoIslb, envOk] at h

/-- C4, amended: once the sfu node owning the mid is found and the `Unpublish`
call on it succeeds, `unpublish` returns the empty map if an islb node is
found, having handed it one `IslbOnStreamRemove` request with no closure
attached (so that nothing of what becomes of that request reaches the
result), and returns the code-500 error if no islb node is found. -/
theorem unpublish_after_relay_success (c : Codes) (env : Env) (reg : Registry) (peer : Peer)
    (msg : UnpublishMsg) (nid : String) (u : Unit) (hsfu : env.sfu msg.MID = .ok nid)
    (hun : env.Unpublish = .ok u) :
    (env.islb = true →
      (unpublish c env reg peer msg).result = .ok .emptyMap ∧
      (unpublish c env reg peer msg).trace.filter Event.isIslbCall =
        [.AsyncRequest .IslbOnStreamRemove
          (.map [("rid", msg.RID), ("uid", peer.id), ("mid", msg.MID)]) .none]) ∧
    (env.islb = false →
      (unpublish c env reg peer msg).result
        = .error (NewNpError 500 "Not found any node for islb.")) := by
  constructor
  · intro hi
    simp [unpublish, hsfu, hun, hi, Event.isIslbCall]
  · intro hi
    simp [unpublish, hsfu, hun, hi, islbNotFound]

theorem unpublish_after_relay_success_witness :
    (unpublish sampleCodes envOk aliceInR1 alice ⟨"r1", "m1"⟩).result = .ok .emptyMap ∧
    (unpublish sampleCodes envOk aliceInR1 alice ⟨"r1", "m1"⟩).trace.filter Event.isIslbCall =
      [.AsyncRequest .IslbOnStreamRemove
        (.map [("rid", "r1"), ("uid", "alice"), ("mid", "m1")]) .none] :=
  (unpublish_after_relay_success sampleCodes envOk aliceInR1 alice ⟨"r1", "m1"⟩ "sfu-1" ()
    rfl rfl).1 rfl

/-! ## Resolution failures -/

/-- C5 fails as stated: with an sfu node found, the publish stream opened
and its first message received, but no islb node found, `publish` fails with
the error of the missing islb node after it has issued two remote calls,
`Publish` and `Recv`, on the sfu client. -/
theorem publish_islb_failure_after_relay_calls :
    envNoIslb.islb = false ∧
    (publish sampleCodes envNoIslb aliceInR1 alice ⟨⟨"offer", "v=0"⟩, ⟨"vp8", 1000, true⟩⟩).result
      = .error (NewNpError 500 "Not found any node for islb.") ∧
    (publish sampleCodes envNoIslb aliceInR1 alice
        ⟨⟨"offer", "v=0"⟩, ⟨"vp8", 1000, true⟩⟩).trace.filter Event.isRemote
      = [.Publish "sfu-1" ⟨"default", "vp8", 1000, true, "offer", "v=0"⟩, .Recv] ∧
    (publish sampleCodes envNoIslb aliceInR1 alice
        ⟨⟨"offer", "v=0"⟩, ⟨"vp8", 1000, true⟩⟩).noRemoteCall = false := by
  refine ⟨rfl, rfl, ?_, ?_⟩
  · simp [publish, envNoIslb, envOk, aliceInR1, alice, GetRoomByPeer, Event.isRemote]
  · simp [Out.noRemoteCall, publish, envNoIslb, envOk, aliceInR1, alice, GetRoomByPeer,
      Event.isRemote]

/-- C5, amended: when `publish`, `unpublish`, `subscribe` or `unsubscribe`
fails because its sfu node is not found, and when `broadcast` fails because
no islb node is found, the action returns the code-500 error without having
issued any remote call, and the registry is unchanged.  None of the five
actions changes the registry on any input.  When `publish` or `unpublish`
fails because no islb node is found, the calls on the sfu client have
already been issued. -/
theorem resolution_failure_frame (c : Codes) (env : Env) (reg : Registry) (peer : Peer) :
    (∀ (msg : PublishMsg) (e : String), env.sfu "" = .error e →
      (publish c env reg peer msg).result = .error (NewNpError 500 e) ∧
      (publish c env reg peer msg).noRemoteCall = true) ∧
    (∀ (msg : UnpublishMsg) (e : String), env.sfu msg.MID = .error e →
      (unpublish c env reg peer msg).result = .error (NewNpError 500 e) ∧
      (unpublish c env reg peer msg).noRemoteCall = true) ∧
    (∀ (msg : SubscribeMsg) (e : String), msg.MID ≠ "" → msg.Description.SDP ≠ "" →
      env.sfu msg.MID = .error e →
      (subscribe c env reg peer msg).result = .error (NewNpError 500 e) ∧
      (subscribe c env reg peer msg).noRemoteCall = true) ∧
    (∀ (msg : UnsubscribeMsg) (e : String), msg.MID ≠ "" → env.sfu msg.MID = .error e →
      (unsubscribe c env reg peer msg).result = .error (NewNpError 500 e) ∧
      (unsubscribe c env reg peer msg).noRemoteCall = true) ∧
    (∀ msg : BroadcastMsg, msg.RID ≠ "" → msg.UID ≠ "" → env.islb = false →
      (broadcast c env reg peer msg).result
        = .error (NewNpError 500 "Not found any node for islb.") ∧
      (broadcast c env reg peer msg).noRemoteCall = true) ∧
    (∀ msg, (publish c env reg peer msg).reg = reg) ∧
    (∀ msg, (unpublish c env reg peer msg).reg = reg) ∧
    (∀ msg, (subscribe c env reg peer msg).reg = reg) ∧
    (∀ msg, (unsubscribe c env reg peer msg).reg = reg) ∧
    (∀ msg, (broadcast c env reg peer msg).reg = reg) ∧
    (∀ (msg : PublishMsg) (nid rid : String) (u : Unit) (answer : PublishReply),
      env.sfu "" = .ok nid → GetRoomByPeer reg peer.id = some rid → env.Publish = .ok u →
      env.Recv = .ok answer → env.islb = false →
      (publish c env reg peer msg).result
        = .error (NewNpError 500 "Not found any node for islb.") ∧
      Event.Recv ∈ (publish c env reg peer msg).trace) ∧
    (∀ (msg : UnpublishMsg) (nid : String) (u : Unit),
      env.sfu msg.MID = .ok nid → env.Unpublish = .ok u → env.islb = false →
      (unpublish c env reg peer msg).result
        = .error (NewNpError 500 "Not found any node for islb.") ∧
      Event.Unpublish nid msg.MID ∈ (unpublish c env reg peer msg).trace) := by
  refine ⟨?_, ?_, ?_, ?_, ?_, ?_, ?_, ?_, ?_, ?_, ?_, ?_⟩
  · intro msg e h
    simp [publish, h, Out.noRemoteCall, Event.isRemote]
  · intro msg e h
    simp [unpublish, h, Out.noRemoteCall, Event.isRemote]
  · intro msg e h1 h2 h
    simp [subscribe, h1, h2, h, Out.noRemoteCall, Event.isRemote]
  · intro msg e h1 h
    simp [unsubscribe, h1, h, Out.noRemoteCall, Event.isRemote]
  · intro msg h1 h2 h
    simp [broadcast, h1, h2, h, Out.noRemoteCall, Event.isRemote, islbNotFound]
  · intro msg
    simp only [publish]
    repeat' split
    all_goals rfl
  · intro msg
    simp only [unpublish]
    repeat' split
    all_goals rfl
  · intro msg
    simp only [subscribe]
    repeat' split
    all_goals rfl
  · intro msg
    simp only [unsubscribe]
    repeat' split
    all_goals rfl
  · intro msg
    simp only [broadcast]
    repeat' split
    all_goals rfl
  · intro msg nid rid u answer h1 h2 h3 h4 h5
    simp [publish, h1, h2, h3, h4, h5, islbNotFound]
  · intro msg nid u h1 h2 h3
    simp [unpublish, h1, h2, h3, islbNotFound]

theorem resolution_failure_frame_witness :
    (subscribe sampleCodes envNoSfu aliceInR1 alice ⟨"unknown-mid", ⟨"offer", "x"⟩⟩).result
      = .error (NewNpError 500 "Not found any node for sfu.") ∧
    (subscribe sampleCodes envNoSfu aliceInR1 alice
      ⟨"unknown-mid", ⟨"offer", "x"⟩⟩).noRemoteCall = true :=
  (resolution_failure_frame sampleCodes envNoSfu aliceInR1 alice).2.2.1
    ⟨"unknown-mid", ⟨"offer", "x"⟩⟩ "Not found any node for sfu." (by decide) (by decide) rfl

/-! ## Errors of the relay calls -/

/-- C9 fails as stated: when the `Subscribe` call on the sfu client returns
the error `boom`, `subscribe` fails with code 500 and the fixed message
`error subscribing to stream`, not with the message `boom`. -/
theorem subscribe_error_not_verbatim :
    envCallsFail.sfu "m1" = .ok "sfu-1" ∧ envCallsFail.Subscribe = .error "boom" ∧
    (subscribe sampleCodes envCallsFail aliceInR1 alice ⟨"m1", ⟨"offer", "v=0"⟩⟩).result
      = .error (NewNpError 500 "error subscribing to stream") ∧
    (subscribe sampleCodes envCallsFail aliceInR1 alice ⟨"m1", ⟨"offer", "v=0"⟩⟩).result
      ≠ .error (NewNpError 500 "boom") := by
  refine ⟨rfl, rfl, ?_, ?_⟩
  · simp [subscribe, envCallsFail]
  · simp [subscribe, envCallsFail, NewNpError]

/-- C9, amended: after validation and node resolution have succeeded, when the
relay call returns an error with message `m`, `unsubscribe` fails with code
500 and the message `m` itself, `subscribe` fails with code 500 and the
fixed message `error subscribing to stream`, and `unpublish` fails with
code 500. -/
theorem relay_error_surfaced (c : Codes) (env : Env) (reg : Registry) (peer : Peer)
    (m : String) :
    (∀ (msg : UnsubscribeMsg) (nid : String), msg.MID ≠ "" → env.sfu msg.MID = .ok nid →
      env.Unsubscribe = .error m →
      (unsubscribe c env reg peer msg).result = .error (NewNpError 500 m)) ∧
    (∀ (msg : SubscribeMsg) (nid : String), msg.MID ≠ "" → msg.Description.SDP ≠ "" →
      env.sfu msg.MID = .ok nid → env.Subscribe = .error m →
      (subscribe c env reg peer msg).result
        = .error (NewNpError 500 "error subscribing to stream")) ∧
    (∀ (msg : UnpublishMsg) (nid : String), env.sfu msg.MID = .ok nid →
      env.Unpublish = .error m →
      ∃ e, (unpublish c env reg peer msg).result = .error e ∧ e.code = 500) := by
  refine ⟨?_, ?_, ?_⟩
  · intro msg nid h1 h2 h3
    simp [unsubscribe, h1, h2, h3]
  · intro msg nid h1 h2 h3 h4
    simp [subscribe, h1, h2, h3, h4]
  · intro msg nid h1 h2
    simp [unpublish, h1, h2, NewNpError]

theorem relay_error_surfaced_witness :
    (unsubscribe sampleCodes envCallsFail aliceInR1 alice ⟨"m1"⟩).result
      = .error (NewNpError 500 "boom") :=
  (relay_error_surfaced sampleCodes envCallsFail aliceInR1 alice "boom").1 ⟨"m1"⟩ "sfu-1"
    (by decide) rfl rfl

end Ion
